import Mathlib

/-!
Shallow embedding of the reminder due-rule and monitor control surface of
`ava_voice_ai/api/reminders.py` (Ava AI Voice Assistant), together with
theorems settling the specification claims about them.
-/

deriving instance DecidableEq for Except

namespace AvaReminders

/-- A local wall-clock instant, modelled as seconds since a local epoch.
Mirrors the Python `datetime` values the code compares (`snooze_until`,
`last_triggered`, `datetime.now()`).  The local calendar date is the day
index `epochSecond / 86400`; `.strftime("%H:%M")` and `.strftime("%A")`
are derived below. -/
structure DateTime where
  epochSecond : Nat
deriving DecidableEq, Repr

/-- Day index of the local calendar date, mirroring Python `.date()`
(equal day index iff equal local calendar date). -/
def DateTime.date (t : DateTime) : Nat :=
  t.epochSecond / 86400

/-- Hour-of-day component, 0..23. -/
def DateTime.hour (t : DateTime) : Nat :=
  t.epochSecond % 86400 / 3600

/-- Minute-of-hour component, 0..59. -/
def DateTime.minute (t : DateTime) : Nat :=
  t.epochSecond % 3600 / 60

/-- Two-digit zero padding, as produced by `strftime` fields. -/
def pad2 (n : Nat) : String :=
  if n < 10 then "0" ++ toString n else toString n

/-- Mirrors `now.strftime("%H:%M")`. -/
def DateTime.strftimeHM (t : DateTime) : String :=
  pad2 t.hour ++ ":" ++ pad2 t.minute

/-- English weekday names; day index 0 of the local epoch is a Thursday
(as for the Unix epoch 1970-01-01). -/
def dayNames : List String :=
  ["Thursday", "Friday", "Saturday", "Sunday", "Monday", "Tuesday", "Wednesday"]

/-- Mirrors `now.strftime("%A")`. -/
def DateTime.weekdayA (t : DateTime) : String :=
  dayNames.getD (t.date % 7) ""

/-- Modelled from the spec: the `Reminder` record of `database/models.py`
(section 3 of the spec; the models module is not part of the analysed
sources).  Only the fields the due-rule and monitor read are kept.
`days_of_week = []` models both Python `None` and `[]` (both falsy in the
`if reminder.is_recurring and reminder.days_of_week` test). -/
structure Reminder where
  id : String
  user_id : String
  title : String
  reminder_time : String
  is_active : Bool
  is_recurring : Bool
  days_of_week : List String
  snooze_until : Option DateTime
  last_triggered : Option DateTime
deriving DecidableEq, Repr

/-- Helper for `pySplit`: walks the characters, collecting the current
piece in `acc` (reversed). -/
def pySplitAux (sep : Char) : List Char → List Char → List String
  | [], acc => [String.mk acc.reverse]
  | c :: cs, acc =>
    if c = sep then String.mk acc.reverse :: pySplitAux sep cs []
    else pySplitAux sep cs (c :: acc)

/-- Model of Python `s.split(sep)` for a single-character separator, as in
`reminder.reminder_time.split(':')`. -/
def pySplit (s : String) (sep : Char) : List String :=
  pySplitAux sep s.toList []

/-- Model of Python `int(s)` on the strings occurring here: a non-empty
all-digit string parses to its decimal value, anything else raises
`ValueError` (modelled as `none`). -/
def pyInt (s : String) : Option Nat :=
  let cs := s.toList
  if cs.isEmpty || !cs.all Char.isDigit then none
  else some (cs.foldl (fun n c => n * 10 + (c.toNat - 48)) 0)

/-- Mirrors `map(int, s.split(':'))` followed by unpacking into exactly two
variables (`reminder_hour, reminder_minute = ...`): the string is split on
`:`; each part must parse via `int`; the result must have exactly two
parts, otherwise a `ValueError` is raised (modelled as `none`). -/
def parseHM (s : String) : Option (Nat × Nat) :=
  match (pySplit s ':').mapM pyInt with
  | some [h, m] => some (h, m)
  | _ => none

/-- Mirrors lines 276-278: `if reminder.snooze_until:` followed by
`if reminder.snooze_until > datetime.now(): return False`, where `now` is
the fresh clock reading made inside the check. -/
def snoozeActive (reminder : Reminder) (now : DateTime) : Bool :=
  match reminder.snooze_until with
  | some s => s.epochSecond > now.epochSecond
  | none => false

/-- Embedding of `is_reminder_due(reminder, current_time, current_day)`
(lines 268-301).  `current_time` and `current_day` are the caller-captured
strings; `snoozeNow` and `todayNow` are the two `datetime.now()` readings
the function itself makes (line 277 in the snooze check and line 297 in the
already-triggered-today check).  A `ValueError` from parsing a time string
is modelled as `Except.error`. -/
def is_reminder_due (reminder : Reminder) (current_time current_day : String)
    (snoozeNow todayNow : DateTime) : Except String Bool :=
  if !reminder.is_active then .ok false
  else if snoozeActive reminder snoozeNow then .ok false
  else
    match parseHM reminder.reminder_time with
    | none => .error "invalid reminder_time"
    | some (rh, rm) =>
      match parseHM current_time with
      | none => .error "invalid current_time"
      | some (ch, cm) =>
        let time_diff := ((ch * 60 + cm : Int) - (rh * 60 + rm : Int)).natAbs
        if time_diff > 1 then .ok false
        else if reminder.is_recurring && !reminder.days_of_week.isEmpty
            && !(reminder.days_of_week.contains current_day) then .ok false
        else
          match reminder.last_triggered with
          | some lt => if lt.date = todayNow.date then .ok false else .ok true
          | none => .ok true

/-- A plain active, non-recurring 09:00 reminder used as a concrete base
for examples. -/
def baseReminder : Reminder :=
  { id := "r1", user_id := "u1", title := "take meds",
    reminder_time := "09:00", is_active := true, is_recurring := false,
    days_of_week := [], snooze_until := none, last_triggered := none }

/-- Day index 4 is a Monday; 09:00:00 local time on that day. -/
def monday9h : DateTime := ⟨4 * 86400 + 9 * 3600⟩

/-- Embedding of the due-check loop of `monitor_reminders` (lines 211-214):
`for reminder in reminders: if is_reminder_due(...): due_reminders.append(...)`.
An exception raised by any single evaluation propagates out of the `for`
loop (there is no per-reminder handler), discarding the partial list. -/
def checkDueReminders (current_time current_day : String)
    (snoozeNow todayNow : DateTime) : List Reminder → Except String (List Reminder)
  | [] => .ok []
  | r :: rest => do
    let due ← is_reminder_due r current_time current_day snoozeNow todayNow
    let tail ← checkDueReminders current_time current_day snoozeNow todayNow rest
    pure (if due then r :: tail else tail)

/-- Embedding of the due-processing loop of `monitor_reminders`
(lines 220-225): for each due reminder, `logger.info` emits it (modelled by
recording its id), then `db.update_reminder(reminder.id, ...)` sets
`last_triggered` (its outcome given by the environment `upd`).  There is no
per-reminder handler, so the first update exception stops the loop; the ids
emitted before it remain emitted.  Returns the emitted ids and the
propagated error, if any. -/
def processDueReminders (upd : String → Except String Unit) :
    List Reminder → List String × Option String
  | [] => ([], none)
  | r :: rest =>
    match upd r.id with
    | .ok _ =>
      let result := processDueReminders upd rest
      (r.id :: result.1, result.2)
    | .error e => ([r.id], some e)

/-- Environment of one tick of `monitor_reminders`: the instant captured at
line 201 (`now = datetime.now()`), the two fresh clock readings made inside
`is_reminder_due`, the outcome of the store fetch (line 208), and the
outcome of each store update keyed by reminder id (line 225). -/
structure TickInput where
  now : DateTime
  snoozeNow : DateTime
  todayNow : DateTime
  fetch : Except String (List Reminder)
  upd : String → Except String Unit

/-- Embedding of the body of the `try` block of one iteration of
`monitor_reminders` (lines 201-228): capture `now`, derive
`current_time = now.strftime("%H:%M")` and `current_day = now.strftime("%A")`,
fetch the active reminders, filter them with `is_reminder_due`, then emit
and update each due reminder.  Any exception escapes as `Except.error`. -/
def tickBody (inp : TickInput) : Except String (List String) := do
  let current_time := inp.now.strftimeHM
  let current_day := inp.now.weekdayA
  let reminders ← inp.fetch
  let due ← checkDueReminders current_time current_day inp.snoozeNow inp.todayNow reminders
  match processDueReminders inp.upd due with
  | (emitted, none) => pure emitted
  | (_, some e) => .error e

/-- Log of one iteration of the `while` loop: the tick's outcome (an
`Except.error` here is one caught and logged by the `except` clause at
lines 230-232), and the seconds slept afterwards (both the `try` path,
line 228, and the `except` path, line 232, sleep `check_interval`). -/
structure TickLog where
  outcome : Except String (List String)
  slept : Nat
deriving DecidableEq, Repr

/-- One iteration of the `while reminder_monitor_running` loop: run the
tick body; every exception is caught by `except Exception` and logged; in
either case the loop sleeps `check_interval` and continues. -/
def monitorTick (check_interval : Nat) (inp : TickInput) : TickLog :=
  { outcome := tickBody inp, slept := check_interval }

/-- Embedding of the `monitor_reminders` loop (lines 199-232) run over a
schedule of tick environments.  The schedule ends exactly when the loop is
cancelled (stop sets `reminder_monitor_running = False` and cancels the
task, both observed at the sleep boundary); nothing else ends it. -/
def monitor_reminders (check_interval : Nat) : List TickInput → List TickLog
  | [] => []
  | inp :: rest => monitorTick check_interval inp :: monitor_reminders check_interval rest

/-- Process-wide monitor state: the module globals
`reminder_monitor_running` (line 17) and `reminder_monitor_task` (line 18),
plus bookkeeping for spawned loop tasks: `nextId` generates fresh task
handles and `liveTasks` lists the loop tasks spawned and not yet
cancelled. -/
structure MonitorState where
  running : Bool
  task : Option Nat
  nextId : Nat
  liveTasks : List Nat
deriving DecidableEq, Repr

/-- The state at module import: `reminder_monitor_running = False`,
`reminder_monitor_task = None`, no tasks ever spawned. -/
def initialMonitorState : MonitorState :=
  { running := false, task := none, nextId := 0, liveTasks := [] }

/-- Embedding of `start_reminder_monitoring` (lines 181-242), returning the
response message and the successor state.  If already running it returns
early without touching the state; otherwise it flips the flag, spawns the
loop task (`asyncio.create_task`) and stores its handle. -/
def start_reminder_monitoring (s : MonitorState) : String × MonitorState :=
  if s.running then ("Reminder monitoring is already running", s)
  else
    ("Reminder monitoring started",
      { running := true, task := some s.nextId, nextId := s.nextId + 1,
        liveTasks := s.nextId :: s.liveTasks })

/-- Embedding of `stop_reminder_monitoring` (lines 244-258): if not running
it returns early without touching the state; otherwise it clears the flag,
cancels the task handle if present (removing it from the live tasks) and
sets the handle to `None`. -/
def stop_reminder_monitoring (s : MonitorState) : String × MonitorState :=
  if !s.running then ("Reminder monitoring is not running", s)
  else
    match s.task with
    | some i =>
      ("Reminder monitoring stopped",
        { s with running := false, task := none, liveTasks := s.liveTasks.erase i })
    | none => ("Reminder monitoring stopped", { s with running := false })

/-- Embedding of `get_monitoring_status` (lines 260-266):
`running` and `task_active = task is not None and not task.done()`
(a task is done once cancelled, i.e. no longer in `liveTasks`). -/
def get_monitoring_status (s : MonitorState) : Bool × Bool :=
  (s.running,
    match s.task with
    | some i => s.liveTasks.contains i
    | none => false)

/-- States reachable from module import by completed control operations. -/
inductive Reachable : MonitorState → Prop
  | init : Reachable initialMonitorState
  | start (s : MonitorState) : Reachable s → Reachable (start_reminder_monitoring s).2
  | stop (s : MonitorState) : Reachable s → Reachable (stop_reminder_monitoring s).2

/-- Invariant tying the running flag, the stored task handle and the live
loop tasks together: while running there is exactly one live loop task and
it is the stored handle; while stopped there is none. -/
theorem reachable_inv (s : MonitorState) (h : Reachable s) :
    (s.running = true → ∃ i, s.task = some i ∧ s.liveTasks = [i])
    ∧ (s.running = false → s.task = none ∧ s.liveTasks = []) := by
  induction h with
  | init => simp [initialMonitorState]
  | start t _ ih =>
    by_cases hr : t.running = true
    · simpa [start_reminder_monitoring, hr] using ih
    · have h2 := ih.2 (by simpa using hr)
      simp [start_reminder_monitoring, hr, h2.2]
  | stop t _ ih =>
    by_cases hr : t.running = true
    · obtain ⟨i, hi, hl⟩ := ih.1 hr
      simp [stop_reminder_monitoring, hr, hi, hl]
    · have h2 := ih.2 (by simpa using hr)
      simp [stop_reminder_monitoring, hr, h2.1, h2.2]

/-- Concrete reminder for the C2 counterexample: snoozed until 09:00:30 on
the Monday of day index 4. -/
def c2Reminder : Reminder :=
  { baseReminder with snooze_until := some ⟨4 * 86400 + 9 * 3600 + 30⟩ }

/-- Clock reading 09:00:29 (one second before the snooze expires). -/
def c2ClockA : DateTime := ⟨4 * 86400 + 9 * 3600 + 29⟩

/-- Clock reading 09:00:30 (the snooze instant itself, no longer inside the
snooze window since the comparison is strict). -/
def c2ClockB : DateTime := ⟨4 * 86400 + 9 * 3600 + 30⟩

/-- Claim C1: for every reminder that passes the active and snooze checks,
`is_reminder_due` returns true only if the absolute difference between the
parsed `reminder_time` and `current_time`, in minutes since midnight and
without wraparound, is at most 1; conversely a difference above 1 always
yields false; in particular reminder 09:00 with now 09:01 is due and with
now 09:02 is not. -/
theorem spec_c1_time_window :
    (∀ (r : Reminder) (ct cd : String) (sn tn : DateTime) (rh rm ch cm : Nat),
      parseHM r.reminder_time = some (rh, rm) →
      parseHM ct = some (ch, cm) →
      is_reminder_due r ct cd sn tn = .ok true →
      ((ch * 60 + cm : Int) - (rh * 60 + rm : Int)).natAbs ≤ 1)
    ∧ (∀ (r : Reminder) (ct cd : String) (sn tn : DateTime) (rh rm ch cm : Nat),
      parseHM r.reminder_time = some (rh, rm) →
      parseHM ct = some (ch, cm) →
      ((ch * 60 + cm : Int) - (rh * 60 + rm : Int)).natAbs > 1 →
      is_reminder_due r ct cd sn tn = .ok false)
    ∧ is_reminder_due baseReminder "09:01" "Monday" monday9h monday9h = .ok true
    ∧ is_reminder_due baseReminder "09:02" "Monday" monday9h monday9h = .ok false := by
  refine ⟨?_, ?_, by decide, by decide⟩
  · intro r ct cd sn tn rh rm ch cm hr hc hdue
    by_contra hle
    have hgt : 1 < ((ch * 60 + cm : Int) - (rh * 60 + rm : Int)).natAbs := by omega
    simp [is_reminder_due, hr, hc, hgt, ite_self] at hdue
  · intro r ct cd sn tn rh rm ch cm hr hc hgt
    simp [is_reminder_due, hr, hc, hgt, ite_self]

/-- Claim C1 witness: the general bound applied at a concrete due reminder. -/
theorem spec_c1_witness :
    ((9 * 60 + 1 : Int) - (9 * 60 + 0 : Int)).natAbs ≤ 1 :=
  spec_c1_time_window.1 baseReminder "09:01" "Monday" monday9h monday9h 9 0 9 1
    (by decide) (by decide) (by decide)

/-- Claim C2 counterexample: a single reminder evaluated twice with the
same captured `current_time`/`current_day` yields different results,
because the snooze check reads a fresh clock inside `is_reminder_due`
(line 277) instead of the captured instant: at clock 09:00:29 the reminder
is snoozed, at 09:00:30 it is due. -/
theorem spec_c2_counterexample :
    is_reminder_due c2Reminder "09:00" "Monday" c2ClockA c2ClockA = .ok false
    ∧ is_reminder_due c2Reminder "09:00" "Monday" c2ClockB c2ClockB = .ok true := by
  decide

/-- Claim C2 (amended): `is_reminder_due` is deterministic in the reminder,
the captured `current_time`/`current_day` strings and its two internal
`datetime.now()` readings; evaluations whose internal readings agree on the
snooze comparison and on the calendar date give the same result.  The
time-window and weekday checks use only the captured strings. -/
theorem spec_c2_deterministic (r : Reminder) (ct cd : String)
    (sn sn' tn tn' : DateTime)
    (h1 : snoozeActive r sn = snoozeActive r sn') (h2 : tn.date = tn'.date) :
    is_reminder_due r ct cd sn tn = is_reminder_due r ct cd sn' tn' := by
  simp only [is_reminder_due, h1, h2]

/-- Claim C2 witness: determinism applied at a concrete reminder and two
distinct internal clock readings on the same day. -/
theorem spec_c2_witness :
    is_reminder_due baseReminder "09:00" "Monday" monday9h monday9h
      = is_reminder_due baseReminder "09:00" "Monday" ⟨4 * 86400 + 9 * 3600 + 1⟩
          ⟨4 * 86400 + 10 * 3600⟩ :=
  spec_c2_deterministic baseReminder "09:00" "Monday" monday9h
    ⟨4 * 86400 + 9 * 3600 + 1⟩ monday9h ⟨4 * 86400 + 10 * 3600⟩
    (by decide) (by decide)

/-- Concrete reminder for the C5 witness: snoozed until 09:05:00. -/
def c5Reminder : Reminder :=
  { baseReminder with snooze_until := some ⟨4 * 86400 + 9 * 3600 + 300⟩ }

/-- Claim C5: a reminder whose `snooze_until` is strictly after the clock
reading of the snooze check is never due, irrespective of every other
field. -/
theorem spec_c5_snooze_suppresses (r : Reminder) (ct cd : String)
    (sn tn s : DateTime)
    (hs : r.snooze_until = some s) (hafter : sn.epochSecond < s.epochSecond) :
    is_reminder_due r ct cd sn tn = .ok false := by
  have hb : snoozeActive r sn = true := by
    simp only [snoozeActive, hs, decide_eq_true_eq]
    omega
  simp [is_reminder_due, hb, ite_self]

/-- Claim C5 witness: the snoozed concrete reminder is not due at 09:00
even though its time window matches. -/
theorem spec_c5_witness :
    is_reminder_due c5Reminder "09:00" "Monday" monday9h monday9h = .ok false :=
  spec_c5_snooze_suppresses c5Reminder "09:00" "Monday" monday9h monday9h
    ⟨4 * 86400 + 9 * 3600 + 300⟩ rfl (by decide)

/-- Reminder with a `reminder_time` that is not parseable as "HH:MM". -/
def c3Bad : Reminder := { baseReminder with id := "bad", reminder_time := "9am" }

/-- Well-formed reminder that is due at 09:00. -/
def c3Good : Reminder := { baseReminder with id := "good" }

/-- Tick whose fetched batch has the malformed reminder first. -/
def c3TickBad : TickInput :=
  { now := monday9h, snoozeNow := monday9h, todayNow := monday9h,
    fetch := .ok [c3Bad, c3Good], upd := fun _ => .ok () }

/-- Tick whose fetched batch has only the well-formed reminder. -/
def c3TickGood : TickInput :=
  { now := monday9h, snoozeNow := monday9h, todayNow := monday9h,
    fetch := .ok [c3Good], upd := fun _ => .ok () }

/-- Claim C3 evaluated at the failing input: with batch `[c3Bad, c3Good]`
the due-check loop raises on the malformed `reminder_time` and the
remaining reminder is never evaluated — the whole tick's work is lost even
though `c3Good` alone is due; the surrounding loop survives (the error is
caught at the tick level, the loop sleeps and runs the next tick). -/
theorem spec_c3_batch_abort :
    checkDueReminders "09:00" "Monday" monday9h monday9h [c3Bad, c3Good]
      = .error "invalid reminder_time"
    ∧ is_reminder_due c3Good "09:00" "Monday" monday9h monday9h = .ok true
    ∧ checkDueReminders "09:00" "Monday" monday9h monday9h [c3Good] = .ok [c3Good]
    ∧ monitor_reminders 60 [c3TickBad, c3TickGood]
      = [{ outcome := .error "invalid reminder_time", slept := 60 },
         { outcome := .ok ["good"], slept := 60 }] := by
  decide

/-- Claim C4: a reminder already triggered on the calendar date of the
today-check clock reading is not due (given well-formed time strings,
the result is exactly `false`); and when the `last_triggered` date differs
from that date, the check imposes nothing: the result is the same as for
the reminder with `last_triggered` unset. -/
theorem spec_c4_already_fired_today :
    (∀ (r : Reminder) (ct cd : String) (sn tn lt : DateTime) (rh rm ch cm : Nat),
      r.last_triggered = some lt → lt.date = tn.date →
      parseHM r.reminder_time = some (rh, rm) →
      parseHM ct = some (ch, cm) →
      is_reminder_due r ct cd sn tn = .ok false)
    ∧ (∀ (r : Reminder) (ct cd : String) (sn tn lt : DateTime),
      r.last_triggered = some lt → lt.date ≠ tn.date →
      is_reminder_due r ct cd sn tn
        = is_reminder_due { r with last_triggered := none } ct cd sn tn) := by
  constructor
  · intro r ct cd sn tn lt rh rm ch cm hlt hdate hr hc
    simp [is_reminder_due, hr, hc, hlt, hdate, ite_self]
  · intro r ct cd sn tn lt hlt hne
    obtain ⟨id, uid, title, rt, act, rec, dow, snz, ltr⟩ := r
    simp only at hlt
    subst hlt
    simp only [is_reminder_due, snoozeActive]
    simp [hne]

/-- Claim C4 witness: a reminder triggered earlier on the same Monday is
not due at its matching time. -/
theorem spec_c4_witness :
    is_reminder_due { baseReminder with last_triggered := some monday9h }
      "09:00" "Monday" monday9h monday9h = .ok false :=
  spec_c4_already_fired_today.1 { baseReminder with last_triggered := some monday9h }
    "09:00" "Monday" monday9h monday9h monday9h 9 0 9 0
    rfl rfl (by decide) (by decide)

/-- Claim C6: a recurring reminder with a non-empty `days_of_week` is due
only when the current weekday name is a member of `days_of_week`; when
`is_recurring` is false or `days_of_week` is empty, the result does not
depend on the current weekday at all. -/
theorem spec_c6_weekday_filter :
    (∀ (r : Reminder) (ct cd : String) (sn tn : DateTime),
      r.is_recurring = true → r.days_of_week ≠ [] →
      is_reminder_due r ct cd sn tn = .ok true → cd ∈ r.days_of_week)
    ∧ (∀ (r : Reminder) (ct cd cd' : String) (sn tn : DateTime),
      r.is_recurring = false ∨ r.days_of_week = [] →
      is_reminder_due r ct cd sn tn = is_reminder_due r ct cd' sn tn) := by
  constructor
  · intro r ct cd sn tn hrec hne hdue
    by_contra hmem
    have hcont : r.days_of_week.contains cd = false := by
      simpa using hmem
    have hemp : r.days_of_week.isEmpty = false := by
      simpa using hne
    cases hp : parseHM r.reminder_time with
    | none =>
      simp [is_reminder_due, hp] at hdue
      split at hdue <;> (try split at hdue) <;> simp_all
    | some p =>
      obtain ⟨rh, rm⟩ := p
      cases hq : parseHM ct with
      | none =>
        simp [is_reminder_due, hp, hq] at hdue
        split at hdue <;> (try split at hdue) <;> simp_all
      | some q =>
        obtain ⟨ch, cm⟩ := q
        simp [is_reminder_due, hp, hq, hrec, hemp, hcont, hmem, ite_self] at hdue
  · intro r ct cd cd' sn tn hcase
    cases hcase with
    | inl hrec => simp [is_reminder_due, hrec]
    | inr hdow => simp [is_reminder_due, hdow]

/-- Claim C6 witness: a Monday-only recurring reminder that is due on a
Monday has "Monday" among its days; and a non-recurring reminder's result
is the same on Monday and Tuesday. -/
theorem spec_c6_witness :
    "Monday" ∈ ["Monday"]
    ∧ is_reminder_due baseReminder "09:00" "Monday" monday9h monday9h
      = is_reminder_due baseReminder "09:00" "Tuesday" monday9h monday9h :=
  ⟨spec_c6_weekday_filter.1
      { baseReminder with is_recurring := true, days_of_week := ["Monday"] }
      "09:00" "Monday" monday9h monday9h rfl (by decide) (by decide),
   spec_c6_weekday_filter.2 baseReminder "09:00" "Monday" "Tuesday" monday9h monday9h
      (Or.inl rfl)⟩

/-- Claim C7: `start` while running and `stop` while stopped are no-ops
that return the informational message and leave the state untouched (in
particular no second loop task is spawned); and in every state reachable
by completed control operations at most one monitor loop task is live. -/
theorem spec_c7_idempotent_control :
    (∀ s : MonitorState, s.running = true →
      (start_reminder_monitoring s).1 = "Reminder monitoring is already running"
      ∧ (start_reminder_monitoring s).2 = s)
    ∧ (∀ s : MonitorState, s.running = false →
      (stop_reminder_monitoring s).1 = "Reminder monitoring is not running"
      ∧ (stop_reminder_monitoring s).2 = s)
    ∧ (∀ s : MonitorState, Reachable s → s.liveTasks.length ≤ 1) := by
  refine ⟨?_, ?_, ?_⟩
  · intro s h
    simp [start_reminder_monitoring, h]
  · intro s h
    simp [stop_reminder_monitoring, h]
  · intro s h
    have inv := reachable_inv s h
    cases hr : s.running with
    | true =>
      obtain ⟨i, _, hl⟩ := inv.1 hr
      simp [hl]
    | false =>
      simp [(inv.2 hr).2]

/-- Claim C7 witness: starting twice from the initial state answers
"already running" the second time, and the state after one start has a
single live loop task. -/
theorem spec_c7_witness :
    (start_reminder_monitoring
        (start_reminder_monitoring initialMonitorState).2).1
      = "Reminder monitoring is already running"
    ∧ (start_reminder_monitoring initialMonitorState).2.liveTasks.length ≤ 1 :=
  ⟨(spec_c7_idempotent_control.1 _ (by decide)).1,
   spec_c7_idempotent_control.2.2 _
      (Reachable.start _ Reachable.init)⟩

/-- Due reminder whose store update fails. -/
def c8A : Reminder := { baseReminder with id := "a" }

/-- Due reminder behind it in the same tick. -/
def c8B : Reminder := { baseReminder with id := "b" }

/-- Store-update environment where updating reminder "a" raises. -/
def c8Upd : String → Except String Unit :=
  fun i => if i = "a" then .error "store update failed" else .ok ()

/-- Tick fetching both due reminders under the failing store. -/
def c8Tick : TickInput :=
  { now := monday9h, snoozeNow := monday9h, todayNow := monday9h,
    fetch := .ok [c8A, c8B], upd := c8Upd }

/-- Claim C8 evaluated at the failing input: with due reminders
`[c8A, c8B]` and the update of "a" failing, only "a" is emitted — the
exception propagates out of the per-due-reminder loop, so "b" is neither
emitted nor updated and the tick's remaining work is aborted (the error is
only caught by the tick-level handler); "b" alone would have been
processed. -/
theorem spec_c8_update_abort :
    processDueReminders c8Upd [c8A, c8B] = (["a"], some "store update failed")
    ∧ processDueReminders c8Upd [c8B] = (["b"], none)
    ∧ tickBody c8Tick = .error "store update failed" := by
  decide

/-- Claim C9: the monitor loop is never terminated by a failing tick: it
executes one tick per scheduled environment whatever their outcomes, a tick
whose body raises is logged as caught and the loop goes on with the rest,
every iteration sleeps the configured interval, and the trace ends only
when the schedule ends (i.e. on cancellation by stop). -/
theorem spec_c9_loop_survives :
    (∀ (ci : Nat) (inputs : List TickInput),
      (monitor_reminders ci inputs).length = inputs.length)
    ∧ (∀ (ci : Nat) (inp : TickInput) (rest : List TickInput) (e : String),
      tickBody inp = .error e →
      monitor_reminders ci (inp :: rest)
        = { outcome := .error e, slept := ci } :: monitor_reminders ci rest)
    ∧ (∀ (ci : Nat) (inputs : List TickInput) (log : TickLog),
      log ∈ monitor_reminders ci inputs → log.slept = ci)
    ∧ (∀ (ci : Nat) (inputs : List TickInput),
      monitor_reminders ci inputs = [] → inputs = []) := by
  refine ⟨?_, ?_, ?_, ?_⟩
  · intro ci inputs
    induction inputs with
    | nil => rfl
    | cons inp rest ih => simp [monitor_reminders, ih]
  · intro ci inp rest e he
    simp [monitor_reminders, monitorTick, he]
  · intro ci inputs log hmem
    induction inputs with
    | nil => simp [monitor_reminders] at hmem
    | cons inp rest ih =>
      simp only [monitor_reminders, List.mem_cons] at hmem
      cases hmem with
      | inl h => rw [h]; rfl
      | inr h => exact ih h
  · intro ci inputs h
    cases inputs with
    | nil => rfl
    | cons inp rest => simp [monitor_reminders] at h

/-- Tick whose store fetch raises. -/
def c9BadTick : TickInput :=
  { now := monday9h, snoozeNow := monday9h, todayNow := monday9h,
    fetch := .error "store fetch failed", upd := fun _ => .ok () }

/-- Claim C9 witness: a tick with a failing fetch is caught and logged and
the loop continues to the rest of the schedule. -/
theorem spec_c9_witness :
    monitor_reminders 60 [c9BadTick]
      = [{ outcome := .error "store fetch failed", slept := 60 }] :=
  spec_c9_loop_survives.2.1 60 c9BadTick [] "store fetch failed" rfl

/-- Claim C10: in every state reachable by completed control operations the
running flag agrees with the presence of the task handle; and immediately
after a `stop` from a running state, the handle is cleared and the status
endpoint reports `running = false` and `task_active = false` together. -/
theorem spec_c10_state_coherence :
    (∀ s : MonitorState, Reachable s → (s.running = true ↔ s.task.isSome = true))
    ∧ (∀ s : MonitorState, s.running = true →
      (stop_reminder_monitoring s).1 = "Reminder monitoring stopped"
      ∧ (stop_reminder_monitoring s).2.task = none
      ∧ get_monitoring_status (stop_reminder_monitoring s).2 = (false, false)) := by
  constructor
  · intro s h
    have inv := reachable_inv s h
    cases hr : s.running with
    | true =>
      obtain ⟨i, hi, _⟩ := inv.1 hr
      simp [hi]
    | false =>
      simp [(inv.2 hr).1]
  · intro s h
    cases ht : s.task with
    | some i => simp [stop_reminder_monitoring, h, ht, get_monitoring_status]
    | none => simp [stop_reminder_monitoring, h, ht, get_monitoring_status]

/-- Claim C10 witness: after start from the initial state the flag and
handle agree, and stop then reports both status fields false. -/
theorem spec_c10_witness :
    ((start_reminder_monitoring initialMonitorState).2.running = true
      ↔ (start_reminder_monitoring initialMonitorState).2.task.isSome = true)
    ∧ get_monitoring_status
        (stop_reminder_monitoring
          (start_reminder_monitoring initialMonitorState).2).2 = (false, false) :=
  ⟨spec_c10_state_coherence.1 _ (Reachable.start _ Reachable.init),
   (spec_c10_state_coherence.2 _ (by decide)).2.2⟩

end AvaReminders
